import Mathlib

/-!
Verification of the polling-and-translation engine of an ESP32 Modbus
RTU-to-TCP gateway (single Arduino sketch `modbus_gateway.ino`).

Modelling conventions:
* Machine integers are `Nat` (or `Int` where the C type is signed), with
  widths enforced by explicit `% 2^w` at the points the C code narrows.
* IEEE-754 `float` values are identified with their 32-bit bit patterns
  (`Nat < 2^32`): the sketch only moves bits between words and a float via
  `memcpy`, so "bit-for-bit" claims are claims about the patterns.
* The ESP32 is little-endian: byte `k` of a `uint32_t` contributes
  `2^(8*k)` to its value.  `decodeFloat32`'s byte-array writes are
  translated accordingly.
* FreeRTOS lock acquisitions and Modbus transport reads are external
  events; they enter the model as explicit boolean/outcome parameters.
* Presentation-only material (HTML rendering, register-description
  strings, register presets) is omitted; no claim depends on it.
-/

namespace ModbusGateway

/-! ## Configuration defines (modbus_gateway.ino lines 20-48) -/

def MAX_CLIENTS : Nat := 3
def MAX_REGISTERS : Nat := 122
def MODBUS_BAUD_DEFAULT : Int := 9600
def RX_PIN_DEFAULT : Int := 16
def TX_PIN_DEFAULT : Int := 17
def MAX_MODBUS_RETRIES : Nat := 3
def HOSTNAME_DEFAULT : String := "modbus2"
def HOSTNAME_MAX_LEN : Nat := 32
def BAUD_RATE_MIN : Int := 1200
def BAUD_RATE_MAX : Int := 115200
def REGISTER_COUNT_MIN : Nat := 1
def REGISTER_COUNT_MAX : Nat := 122
def POLL_INTERVAL_MIN : Nat := 100
def POLL_INTERVAL_MAX : Nat := 60000
def CLIENT_ID_MIN : Nat := 1
def CLIENT_ID_MAX : Nat := 247

/-- Modulus of the 32-bit unsigned arithmetic used by `millis()` and the
combined word pair in `decodeFloat32`. -/
def UINT32_MOD : Nat := 4294967296

/-! ## Device profile system (lines 50-104, 209-220) -/

inductive ModbusFunction
  | FUNC_READ_COILS
  | FUNC_READ_DISCRETE
  | FUNC_READ_HOLDING
  | FUNC_READ_INPUT
deriving DecidableEq, Repr, Inhabited

/-- One row of the static `deviceProfiles` table.  The presentation-only
fields (`getRegDescription`, `presets`, `presetCount`) are omitted. -/
structure DeviceProfile where
  name : String
  readFunction : ModbusFunction
  useFloatDecoding : Bool
  swapBytes : Bool
  swapWords : Bool
  recommendedPollInterval : Nat
deriving DecidableEq, Repr, Inhabited

/-- The static profile registry (lines 210-218), in declaration order:
indices 0..6 are Generic, Growatt, Eastron, SolarEdge, SMA, Fronius,
Huawei. -/
def deviceProfiles : List DeviceProfile := [
  { name := "Generic Device", readFunction := .FUNC_READ_INPUT,
    useFloatDecoding := true, swapBytes := false, swapWords := false,
    recommendedPollInterval := 1000 },
  { name := "Growatt Inverter", readFunction := .FUNC_READ_INPUT,
    useFloatDecoding := true, swapBytes := true, swapWords := true,
    recommendedPollInterval := 1000 },
  { name := "Eastron SDM630", readFunction := .FUNC_READ_INPUT,
    useFloatDecoding := true, swapBytes := false, swapWords := true,
    recommendedPollInterval := 1000 },
  { name := "SolarEdge Inverter", readFunction := .FUNC_READ_HOLDING,
    useFloatDecoding := true, swapBytes := true, swapWords := false,
    recommendedPollInterval := 1000 },
  { name := "SMA Inverter", readFunction := .FUNC_READ_HOLDING,
    useFloatDecoding := true, swapBytes := true, swapWords := true,
    recommendedPollInterval := 1000 },
  { name := "Fronius Inverter", readFunction := .FUNC_READ_HOLDING,
    useFloatDecoding := true, swapBytes := false, swapWords := false,
    recommendedPollInterval := 1000 },
  { name := "Huawei Inverter", readFunction := .FUNC_READ_HOLDING,
    useFloatDecoding := true, swapBytes := true, swapWords := false,
    recommendedPollInterval := 1000 } ]

def DEVICE_PROFILE_COUNT : Nat := deviceProfiles.length

/-- `deviceProfiles[t]`.  The C code indexes the array directly; the
lookup is meaningful only for `0 ≤ t < DEVICE_PROFILE_COUNT` (the
validated range of `deviceType`). -/
def profileAt (t : Int) : DeviceProfile := deviceProfiles.getD t.toNat default

/-- The `clientConfig` struct (lines 94-104).  `id` is `uint8_t`;
`startAddress`, `registerCount`, `pollInterval`, `errorCount`,
`successCount` are `uint16_t`; `lastPoll` is `unsigned long` (32-bit);
`deviceType` is an `int`-backed enum, kept as `Int` because the HTTP
handler casts an arbitrary `toInt()` result into it. -/
structure ClientConfig where
  id : Nat
  enabled : Bool
  startAddress : Nat
  registerCount : Nat
  pollInterval : Nat
  lastPoll : Nat
  errorCount : Nat
  successCount : Nat
  deviceType : Int
deriving DecidableEq, Repr

instance : Inhabited ClientConfig :=
  ⟨{ id := 0, enabled := false, startAddress := 0, registerCount := 0,
     pollInterval := 0, lastPoll := 0, errorCount := 0, successCount := 0,
     deviceType := 0 }⟩

/-! ## RegisterCodec (lines 355-380) -/

/-- `decodeFloat32(reg1, reg2, swapBytes, swapWords)`, returning the bit
pattern of the produced float (the final `memcpy` into a `float` is the
identity on bits).  The C function fills the four bytes of a
little-endian `uint32_t`:
with `swapBytes` it writes `bytes[3] = hi(reg1)`, `bytes[2] = lo(reg1)`,
`bytes[1] = hi(reg2)`, `bytes[0] = lo(reg2)`; otherwise
`bytes[1] = hi(reg1)`, `bytes[0] = lo(reg1)`, `bytes[3] = hi(reg2)`,
`bytes[2] = lo(reg2)`.  Byte `k` weighs `2^(8*k)`.  The `% 65536` on
entry models the `uint16_t` parameter type. -/
def decodeFloat32 (reg1 reg2 : Nat) (swapBytes swapWords : Bool) : Nat :=
  let r1 := reg1 % 65536
  let r2 := reg2 % 65536
  let a := if swapWords then r2 else r1
  let b := if swapWords then r1 else r2
  if swapBytes then
    (a / 256 % 256) * 16777216 + (a % 256) * 65536 + (b / 256 % 256) * 256 + b % 256
  else
    (b / 256 % 256) * 16777216 + (b % 256) * 65536 + (a / 256 % 256) * 256 + a % 256

/-- Modelled from the spec: the repository contains no encoder — §8's
round-trip property speaks of "encoding v into two words under a chosen
(byteOrderSwapped, wordOrderSwapped) policy", the encoding counterpart of
the `decodeFloat32` layout of §4.1.  This splits the 32-bit pattern into
the two halves the byte assembly of `decodeFloat32` reads them from, then
applies the word-order swap; it is the layout inverse of the decoder
under the same policy flags. -/
def encodeFloat32Bits (v : Nat) (swapBytes swapWords : Bool) : Nat × Nat :=
  let w := v % UINT32_MOD
  let a := if swapBytes then w / 65536 else w % 65536
  let b := if swapBytes then w % 65536 else w / 65536
  if swapWords then (b, a) else (a, b)

/-! ## RegisterCache and the decoded read path (lines 877-935) -/

/-- Effect of one successful transport read on a cache row: `readHreg` /
`readIreg` overwrite the first `regCount` entries of the row with the
words received from the device and leave the rest untouched. -/
def cacheRowAfterPoll (regCount : Nat) (words oldRow : Nat → Nat) : Nat → Nat :=
  fun j => if j < regCount then words j else oldRow j

/-- One `(address, value)` entry of the JSON array built by
`handleClientData`.  For float-decoding profiles `value` is the bit
pattern of the decoded float; for others it is the raw word.  The
`raw_high` / `raw_low` / `description` fields are presentation detail and
omitted. -/
structure DecodedEntry where
  address : Nat
  value : Nat
deriving DecidableEq, Repr

/-- The register-decoding portion of `handleClientData` (lines 896-930),
the `readDecoded` accessor of spec §4.6.  `holding` / `input` are the
cache rows `holdingRegs[clientIndex]` / `inputRegs[clientIndex]`.
Float profiles walk the window two words at a time
(`for (j = 0; j < registerCount - 1; j += 2)`, breaking at
`j + 1 >= MAX_REGISTERS`): the executed `j` are `2*k` for
`k < min (registerCount / 2) 61`.  Other profiles walk one word at a
time with the `j >= MAX_REGISTERS` break. -/
def handleClientData (c : ClientConfig) (holding input : Nat → Nat) : List DecodedEntry :=
  let profile := profileAt c.deviceType
  let regs := if profile.readFunction = .FUNC_READ_HOLDING then holding else input
  if profile.useFloatDecoding then
    (List.range (min (c.registerCount / 2) 61)).map (fun k =>
      { address := c.startAddress + 2 * k,
        value := decodeFloat32 (regs (2 * k)) (regs (2 * k + 1))
                   profile.swapBytes profile.swapWords })
  else
    (List.range (min c.registerCount MAX_REGISTERS)).map (fun j =>
      { address := c.startAddress + j, value := regs j })

/-- The binding of the end-to-end scenario: id 1, window [0,4), generic
float-decoding profile (index 0). -/
def c1Binding : ClientConfig :=
  { id := 1, enabled := true, startAddress := 0, registerCount := 4,
    pollInterval := 1000, lastPoll := 0, errorCount := 0, successCount := 0,
    deviceType := 0 }

/-- The transport words of the end-to-end scenario. -/
def c1Words : Nat → Nat := fun j => [0x4348, 0x0000, 0x4348, 0x0000].getD j 0

/-- The same scenario with the two words of each pair exchanged. -/
def c1WordsSwapped : Nat → Nat := fun j => [0x0000, 0x4348, 0x0000, 0x4348].getD j 0

/-! ## Configuration state and validation (lines 162-230, 561-708) -/

/-- The mutable global configuration the sketch keeps: WiFi credentials,
hostname, serial parameters, and the client binding array with its
`activeclients` count.  `clients` models the fixed `clients[MAX_CLIENTS]`
array, and `activeclients` the `int` count (which can be out of range
before validation). -/
structure GatewayConfig where
  wifi_ssid : String
  wifi_password : String
  hostname : String
  modbus_baud : Int
  rx_pin : Int
  tx_pin : Int
  activeclients : Int
  clients : List ClientConfig
deriving DecidableEq, Repr

/-- The zero-initialised global state at boot: `clients[MAX_CLIENTS]` is
a zeroed array, counters zero, compile-time defaults for the rest
(lines 107-228). -/
def initialConfig : GatewayConfig :=
  { wifi_ssid := "", wifi_password := "", hostname := HOSTNAME_DEFAULT,
    modbus_baud := MODBUS_BAUD_DEFAULT, rx_pin := RX_PIN_DEFAULT,
    tx_pin := TX_PIN_DEFAULT, activeclients := 0,
    clients := List.replicate MAX_CLIENTS default }

/-- `validateHostname` (lines 605-612): non-empty, at most 32
characters, only alphanumerics and hyphens (C `isalnum` over ASCII). -/
def validateHostname (host : String) : Bool :=
  if host.length = 0 ∨ host.length > HOSTNAME_MAX_LEN then false
  else host.toList.all (fun c => c.isAlphanum || c == '-')

/-- `validateBaudRate` (lines 614-616). -/
def validateBaudRate (baud : Int) : Bool :=
  decide (BAUD_RATE_MIN ≤ baud ∧ baud ≤ BAUD_RATE_MAX)

/-- `validateRegisterCount` (lines 618-620). -/
def validateRegisterCount (count : Nat) : Bool :=
  decide (REGISTER_COUNT_MIN ≤ count ∧ count ≤ REGISTER_COUNT_MAX)

/-- The per-binding body of `validateConfig`'s loop (lines 583-600):
each out-of-range field is replaced by its documented default
(`id := i + 1`, `registerCount := 10`, `pollInterval := 1000`,
`deviceType := DEVICE_GENERIC`); the returned flag is false when any
field was corrected.  The C code performs the four independent
check-and-assign steps in sequence on distinct fields, so they are
combined into one record update. -/
def validateClientFields (i : Nat) (c : ClientConfig) : ClientConfig × Bool :=
  let idOk := decide (CLIENT_ID_MIN ≤ c.id ∧ c.id ≤ CLIENT_ID_MAX)
  let rcOk := validateRegisterCount c.registerCount
  let piOk := decide (POLL_INTERVAL_MIN ≤ c.pollInterval ∧ c.pollInterval ≤ POLL_INTERVAL_MAX)
  let dtOk := decide (0 ≤ c.deviceType ∧ c.deviceType < (DEVICE_PROFILE_COUNT : Int))
  ({ c with
      id := if idOk then c.id else i + 1,
      registerCount := if rcOk then c.registerCount else 10,
      pollInterval := if piOk then c.pollInterval else 1000,
      deviceType := if dtOk then c.deviceType else 0 },
   idOk && rcOk && piOk && dtOk)

/-- The `for (i = 0; i < activeclients; i++)` loop of `validateConfig`,
correcting the bindings at indices `[i₀, n)` of the array (the array has
exactly `MAX_CLIENTS` slots and the loop runs after the count is clamped
to at most `MAX_CLIENTS`). -/
def validateClientsAux : Nat → Int → List ClientConfig → List ClientConfig × Bool
  | _, _, [] => ([], true)
  | i, n, c :: cs =>
    if (i : Int) < n then
      ((validateClientFields i c).1 :: (validateClientsAux (i + 1) n cs).1,
       (validateClientFields i c).2 && (validateClientsAux (i + 1) n cs).2)
    else (c :: cs, true)

/-- `validateConfig` (lines 562-603): corrects hostname, baud rate, the
client count (reset to 0 when outside `[0, MAX_CLIENTS]`) and every
binding in range, returning the corrected state and whether the input
was already valid. -/
def validateConfig (g : GatewayConfig) : GatewayConfig × Bool :=
  let v1 := validateHostname g.hostname
  let v2 := validateBaudRate g.modbus_baud
  let v3 := decide (0 ≤ g.activeclients ∧ g.activeclients ≤ (MAX_CLIENTS : Int))
  let a := if v3 then g.activeclients else 0
  ({ g with
      hostname := if v1 then g.hostname else HOSTNAME_DEFAULT,
      modbus_baud := if v2 then g.modbus_baud else MODBUS_BAUD_DEFAULT,
      activeclients := a,
      clients := (validateClientsAux 0 a g.clients).1 },
   v1 && v2 && v3 && (validateClientsAux 0 a g.clients).2)

/-- The spec §3 binding invariant: `id ∈ [1,247]`,
`registerCount ∈ [1,122]`, `pollInterval ∈ [100,60000]`, `deviceType` a
valid profile index. -/
def bindingInvariant (c : ClientConfig) : Prop :=
  CLIENT_ID_MIN ≤ c.id ∧ c.id ≤ CLIENT_ID_MAX ∧
  REGISTER_COUNT_MIN ≤ c.registerCount ∧ c.registerCount ≤ REGISTER_COUNT_MAX ∧
  POLL_INTERVAL_MIN ≤ c.pollInterval ∧ c.pollInterval ≤ POLL_INTERVAL_MAX ∧
  0 ≤ c.deviceType ∧ c.deviceType < (DEVICE_PROFILE_COUNT : Int)

instance (c : ClientConfig) : Decidable (bindingInvariant c) := by
  unfold bindingInvariant; infer_instance

/-! ## Persisted configuration (lines 622-666) -/

/-- Persisted per-binding fields: `none` models an absent key, on which
the `prefs.getX(key, default)` call falls back to its default. -/
structure PersistedClient where
  id : Option Nat
  en : Option Bool
  addr : Option Nat
  count : Option Nat
  poll : Option Nat
  type : Option Nat

/-- The persisted store (`Preferences` namespace `modbus-gw`). -/
structure Persisted where
  ssid : Option String
  password : Option String
  hostname : Option String
  baud : Option Int
  rx_pin : Option Int
  tx_pin : Option Int
  active_clients : Option Int
  client : Nat → PersistedClient

/-- Loading one binding slot (lines 638-649): `getUChar` /
`getUShort` widths are modelled by `% 256` / `% 65536`; runtime fields
are reset to zero. -/
def loadClient (i : Nat) (p : PersistedClient) : ClientConfig :=
  { id := p.id.getD (i + 1) % 256,
    enabled := p.en.getD true,
    startAddress := p.addr.getD 0 % 65536,
    registerCount := p.count.getD 10 % 65536,
    pollInterval := p.poll.getD 1000 % 65536,
    deviceType := ((p.type.getD 0 % 256 : Nat) : Int),
    lastPoll := 0, errorCount := 0, successCount := 0 }

/-- The default binding synthesised when zero bindings are configured
(lines 651-663): id 1, window [0,10), 1000 ms, generic profile. -/
def defaultClient : ClientConfig :=
  { id := 1, enabled := true, startAddress := 0, registerCount := 10,
    pollInterval := 1000, deviceType := 0,
    lastPoll := 0, errorCount := 0, successCount := 0 }

/-- `loadConfig` (lines 622-666): reads the settings with their
defaults, loads binding slots `i < activeclients && i < MAX_CLIENTS`
(other slots keep their previous array contents), and, when the stored
count is zero, synthesises the single default binding. -/
def loadConfig (p : Persisted) (g : GatewayConfig) : GatewayConfig :=
  let active : Int := p.active_clients.getD 0
  let loaded := (List.range MAX_CLIENTS).map (fun (i : Nat) =>
    if (i : Int) < active then loadClient i (p.client i) else g.clients.getD i default)
  let g1 := { g with
    wifi_ssid := p.ssid.getD (""),
    wifi_password := p.password.getD (""),
    hostname := p.hostname.getD HOSTNAME_DEFAULT,
    modbus_baud := p.baud.getD MODBUS_BAUD_DEFAULT,
    rx_pin := p.rx_pin.getD RX_PIN_DEFAULT,
    tx_pin := p.tx_pin.getD TX_PIN_DEFAULT,
    activeclients := active,
    clients := loaded }
  if active = 0 then
    { g1 with clients := defaultClient :: loaded.drop 1, activeclients := 1 }
  else g1

/-- A persisted store whose binding count is 5, exceeding the capacity
of 3; every other key is absent. -/
def persisted5 : Persisted :=
  { ssid := none, password := none, hostname := none, baud := none,
    rx_pin := none, tx_pin := none, active_clients := some 5,
    client := fun _ =>
      { id := none, en := none, addr := none, count := none,
        poll := none, type := none } }

/-! ## Client configuration submission (lines 1483-1503) -/

/-- The HTTP arguments of slot `i` of a `/clients` POST: `en` is
`hasArg("en{i}")` (checkbox present), `hasId` is `hasArg("id{i}")`, the
rest are the `toInt()` values of the corresponding fields (0 when the
argument is absent). -/
structure ClientSubmission where
  en : Bool
  hasId : Bool
  id : Int
  type : Int
  addr : Int
  count : Int
  poll : Int
deriving DecidableEq, Repr

/-- The field assignments of one accepted slot (lines 1487-1495):
narrowing casts into the struct's `uint8_t` / `uint16_t` fields follow C
unsigned-conversion semantics (`Int.emod` into `[0, 2^w)`); the enum
cast keeps the raw value; `lastPoll`, `errorCount` and `successCount`
are reset to zero. -/
def storeClient (s : ClientSubmission) : ClientConfig :=
  { enabled := s.en,
    id := (s.id % 256).toNat,
    deviceType := s.type,
    startAddress := (s.addr % 65536).toNat,
    registerCount := (s.count % 65536).toNat,
    pollInterval := (s.poll % 65536).toNat,
    lastPoll := 0, errorCount := 0, successCount := 0 }

/-- The bindings a `/clients` POST stores, in submission order: the loop
visits slots `0 ≤ i < MAX_CLIENTS` and stores slot `i` when
`hasArg("en{i}") || (i == 0 && hasArg("id{i}"))`, compacting into the
front of the array. -/
def submittedList (subs : List ClientSubmission) : List ClientConfig :=
  ((subs.take MAX_CLIENTS).enum.filter
    (fun p => p.2.en || (p.1 == 0 && p.2.hasId))).map (fun p => storeClient p.2)

/-- The `/clients` HTTP_POST handler (lines 1483-1503): rebuilds the
binding array from the submission, sets `activeclients` to the number
stored (forced to 1 when zero), and performs no validation. -/
def handleClientsPost (subs : List ClientSubmission) (g : GatewayConfig) : GatewayConfig :=
  let stored := submittedList subs
  let n := stored.length
  { g with
    clients := stored ++ g.clients.drop n,
    activeclients := if n = 0 then 1 else (n : Int) }

/-- A submission enabling one binding with `pollInterval = 5`, below the
documented minimum of 100. -/
def submissionPoll5 : ClientSubmission :=
  { en := true, hasId := true, id := 1, type := 0, addr := 0, count := 10, poll := 5 }

/-- A well-formed one-binding submission. -/
def submissionOk : ClientSubmission :=
  { en := true, hasId := true, id := 2, type := 1, addr := 0, count := 20, poll := 1000 }

/-- A running state whose single binding has accumulated statistics. -/
def gWithStats : GatewayConfig :=
  { initialConfig with
    activeclients := 1,
    clients := [{ defaultClient with successCount := 7, errorCount := 2, lastPoll := 123 },
                default, default] }

/-! ## PollScheduler (modbusTask, lines 382-483) -/

/-- The externally determined outcome of one iteration of the bounded
retry loop: the `xSemaphoreTake(dataMutex, …)` acquisition times out, or
it succeeds and the Modbus read fails, or it succeeds and the read
succeeds. -/
inductive AttemptOutcome
  | lockTimeout
  | readFail
  | readOk
deriving DecidableEq, Repr

/-- Observable effect of one polling pass of a binding: whether the pass
succeeded, how many `dataMutex` acquisitions it attempted, and the
increments applied to `systemErrors`, the binding's `errorCount` /
`successCount`, the global `errors` counter, and whether
`lastPoll` was set to the current `millis()`. -/
structure PassResult where
  success : Bool
  lockAttempts : Nat
  systemErrorsDelta : Nat
  errorCountDelta : Nat
  successCountDelta : Nat
  globalErrorsDelta : Nat
  rtuRequestsDelta : Nat
  lastPollUpdated : Bool
deriving DecidableEq, Repr

/-- The bounded retry loop of `modbusTask`
(`for (retry = 0; retry < MAX_MODBUS_RETRIES && !success; retry++)`,
lines 421-477), bookkeeping included.  The script lists one outcome per
remaining retry, so a pass starts with a script of length
`MAX_MODBUS_RETRIES` and the singleton case is the final retry
(`retry == MAX_MODBUS_RETRIES - 1`).  `cfgLockOk` is the outcome of the
100 ms `configMutex` take guarding the counter updates (lines 456-460
on success, 466-470 on final failure); when it times out the counters
and `lastPoll` are silently left unchanged.  A `dataMutex` timeout
increments `systemErrors`, delays 50 ms and falls through to the next
retry iteration; a non-final failed read delays 100 ms; a final failed
read increments the binding's `errorCount` (lock permitting) and the
global `errors` counter, and sets `lastPoll`. -/
def pollRetryLoop (cfgLockOk : Bool) : List AttemptOutcome → PassResult
  | [] =>
    { success := false, lockAttempts := 0, systemErrorsDelta := 0,
      errorCountDelta := 0, successCountDelta := 0, globalErrorsDelta := 0,
      rtuRequestsDelta := 0, lastPollUpdated := false }
  | .readOk :: _ =>
    { success := true, lockAttempts := 1, systemErrorsDelta := 0,
      errorCountDelta := 0,
      successCountDelta := if cfgLockOk then 1 else 0,
      globalErrorsDelta := 0, rtuRequestsDelta := 1,
      lastPollUpdated := cfgLockOk }
  | [.readFail] =>
    { success := false, lockAttempts := 1, systemErrorsDelta := 0,
      errorCountDelta := if cfgLockOk then 1 else 0,
      successCountDelta := 0, globalErrorsDelta := 1,
      rtuRequestsDelta := 0, lastPollUpdated := cfgLockOk }
  | .readFail :: rest =>
    let r := pollRetryLoop cfgLockOk rest
    { r with lockAttempts := r.lockAttempts + 1 }
  | .lockTimeout :: rest =>
    let r := pollRetryLoop cfgLockOk rest
    { r with lockAttempts := r.lockAttempts + 1,
             systemErrorsDelta := r.systemErrorsDelta + 1 }

/-- Number of `dataMutex` acquisition timeouts among the retry
iterations the pass executes (iterations after a successful read do not
run). -/
def executedTimeouts : List AttemptOutcome → Nat
  | [] => 0
  | .readOk :: _ => 0
  | .readFail :: rest => executedTimeouts rest
  | .lockTimeout :: rest => executedTimeouts rest + 1

/-- The 32-bit unsigned difference `millis() - lastPoll` computed by the
due check (line 414). -/
def elapsed32 (now last : Nat) : Nat :=
  (now + (UINT32_MOD - last % UINT32_MOD)) % UINT32_MOD

/-- The interval gate of `modbusTask`
(`if (millis() - lastPoll < pollInterval) continue;`, line 414): true
when the binding is skipped this tick. -/
def pollSkipped (now lastPoll pollInterval : Nat) : Bool :=
  decide (elapsed32 now lastPoll < pollInterval)

/-! ## REST raw-register accessor (lines 844-874) -/

/-- The `/api/registers` HTTP_GET handler: rejects a count outside
`[1, 122]` with a 400 error, and otherwise returns one
`(start + i, inputRegs[0][i])` entry per
`i < count && i < MAX_REGISTERS` — always reading binding slot 0's
input-register row, using `start` only as a display offset, and never
consulting any binding's `registerCount`.  `lockOk` is the outcome of
the 1000 ms `dataMutex` take; on timeout the reply is an empty register
array (still HTTP 200). -/
def apiRegisters (start count : Int) (inputRegs0 : Nat → Nat) (lockOk : Bool) :
    Except String (List (Int × Nat)) :=
  if count < 1 ∨ count > 122 then Except.error ("Invalid count (1-122)")
  else Except.ok (if lockOk then
    (List.range (min count.toNat MAX_REGISTERS)).map
      (fun (i : Nat) => (start + (i : Int), inputRegs0 i))
    else [])

/-! ## Theorems -/

/-- C1 counterexample.  In the end-to-end scenario (binding id 1,
startAddress 0, registerCount 4, generic profile, transport words
`[0x4348, 0x0000, 0x4348, 0x0000]`, one successful poll) `readDecoded`
yields two entries at addresses 0 and 2, but each carries the float with
bit pattern `0x00004348` (a denormal ≈ 2.4e-41), not 200.0
(`0x43480000`): the no-swap branch of `decodeFloat32` places the first
word of a pair in the LOW half of the combined 32-bit value. -/
theorem c1_end_to_end_counterexample :
    handleClientData c1Binding (fun _ => 0)
        (cacheRowAfterPoll 4 c1Words (fun _ => 0)) =
      [⟨0, 0x4348⟩, ⟨2, 0x4348⟩] ∧
    (0x4348 : Nat) ≠ 0x43480000 := by
  decide

/-- C1 amended.  The scenario yields exactly two entries, at addresses 0
and 2, each with the float whose IEEE-754 bit pattern is `0x00004348`
(not 200.0); with the words of each register pair exchanged
(`[0x0000, 0x4348, 0x0000, 0x4348]`) the same binding decodes to 200.0
(bit pattern `0x43480000`) at both addresses. -/
theorem c1_end_to_end_amended :
    handleClientData c1Binding (fun _ => 0)
        (cacheRowAfterPoll 4 c1Words (fun _ => 0)) =
      [⟨0, 0x4348⟩, ⟨2, 0x4348⟩] ∧
    handleClientData c1Binding (fun _ => 0)
        (cacheRowAfterPoll 4 c1WordsSwapped (fun _ => 0)) =
      [⟨0, 0x43480000⟩, ⟨2, 0x43480000⟩] := by
  decide

/-- C5: decoding round-trip.  For every 32-bit pattern `v` and each of
the four `(byteOrderSwapped, wordOrderSwapped)` policy combinations,
encoding `v` into two 16-bit words under the policy and decoding them
with `decodeFloat32` under the same policy reproduces `v` bit for bit. -/
theorem c5_decode_roundtrip (v : Nat) (hv : v < UINT32_MOD) (sb sw : Bool) :
    decodeFloat32 (encodeFloat32Bits v sb sw).1 (encodeFloat32Bits v sb sw).2 sb sw = v := by
  cases sb <;> cases sw <;>
    simp only [decodeFloat32, encodeFloat32Bits, UINT32_MOD, if_true, if_false,
      Bool.false_eq_true] <;>
    simp only [UINT32_MOD] at hv <;> omega

/-- C5 witness: the round-trip at the concrete pattern of 200.0
(`0x43480000`) under the natural policy. -/
theorem c5_decode_roundtrip_witness :
    (0x43480000 : Nat) < UINT32_MOD ∧
    decodeFloat32 (encodeFloat32Bits 0x43480000 false false).1
      (encodeFloat32Bits 0x43480000 false false).2 false false = 0x43480000 :=
  ⟨by decide, c5_decode_roundtrip 0x43480000 (by decide) false false⟩

/-- C2 counterexample.  With a persisted binding count of 5 (capacity
3, all other keys absent) and the boot-time state, `loadConfig` leaves
the stored count at 5 and the subsequent `validateConfig` resets it to
0 — at no point does the pipeline hold the claimed truncated count of
3 stored bindings. -/
theorem c2_capacity_counterexample :
    (loadConfig persisted5 initialConfig).activeclients = 5 ∧
    ((validateConfig (loadConfig persisted5 initialConfig)).1).activeclients = 0 ∧
    ¬ (loadConfig persisted5 initialConfig).activeclients = 3 ∧
    ¬ ((validateConfig (loadConfig persisted5 initialConfig)).1).activeclients = 3 := by
  decide

/-- C2 amended.  For every persisted configuration whose binding count
exceeds the capacity 3, `loadConfig` loads exactly the first 3 persisted
bindings into the array but keeps the oversized stored count, and
`validateConfig` then resets the count to 0 (its documented default) and
reports the configuration invalid — the count is emptied, not truncated
to 3; no failure/crash occurs.  A `/clients` submission can never exceed
the capacity, since the handler visits only `MAX_CLIENTS` slots. -/
theorem c2_capacity_amended (p : Persisted) (g : GatewayConfig)
    (h : 3 < p.active_clients.getD 0) :
    (loadConfig p g).activeclients = p.active_clients.getD 0 ∧
    (loadConfig p g).clients =
      [loadClient 0 (p.client 0), loadClient 1 (p.client 1), loadClient 2 (p.client 2)] ∧
    ((validateConfig (loadConfig p g)).1).activeclients = 0 ∧
    (validateConfig (loadConfig p g)).2 = false ∧
    ∀ subs : List ClientSubmission, (submittedList subs).length ≤ 3 := by
  have hload : loadConfig p g = { g with
      wifi_ssid := p.ssid.getD (""),
      wifi_password := p.password.getD (""),
      hostname := p.hostname.getD HOSTNAME_DEFAULT,
      modbus_baud := p.baud.getD MODBUS_BAUD_DEFAULT,
      rx_pin := p.rx_pin.getD RX_PIN_DEFAULT,
      tx_pin := p.tx_pin.getD TX_PIN_DEFAULT,
      activeclients := p.active_clients.getD 0,
      clients := [loadClient 0 (p.client 0), loadClient 1 (p.client 1),
                  loadClient 2 (p.client 2)] } := by
    simp only [loadConfig]
    rw [if_neg (by omega)]
    have hr : List.range MAX_CLIENTS = [0, 1, 2] := rfl
    rw [hr]
    simp only [List.map_cons, List.map_nil]
    rw [if_pos (by push_cast; omega), if_pos (by push_cast; omega),
      if_pos (by push_cast; omega)]
  refine ⟨by rw [hload], by rw [hload], ?_, ?_, ?_⟩
  · rw [hload]
    simp only [validateConfig]
    rw [if_neg ?hc]
    case hc =>
      simp only [decide_eq_true_eq, MAX_CLIENTS]
      push_cast
      omega
  · rw [hload]
    simp only [validateConfig]
    have hd : decide (0 ≤ p.active_clients.getD 0 ∧
        p.active_clients.getD 0 ≤ ((MAX_CLIENTS : Nat) : Int)) = false := by
      simp only [decide_eq_false_iff_not, MAX_CLIENTS]
      push_cast
      omega
    rw [hd]
    simp
  · intro subs
    calc (submittedList subs).length
        ≤ ((subs.take MAX_CLIENTS).enum).length := by
          simp only [submittedList, List.length_map]
          exact List.length_filter_le _ _
      _ ≤ MAX_CLIENTS := by simp [List.enum_length]

/-- C2 witness: the amended behaviour at the concrete oversized store
`persisted5`. -/
theorem c2_capacity_amended_witness :
    3 < persisted5.active_clients.getD 0 ∧
    ((loadConfig persisted5 initialConfig).activeclients =
        persisted5.active_clients.getD 0 ∧
      (loadConfig persisted5 initialConfig).clients =
        [loadClient 0 (persisted5.client 0), loadClient 1 (persisted5.client 1),
         loadClient 2 (persisted5.client 2)] ∧
      ((validateConfig (loadConfig persisted5 initialConfig)).1).activeclients = 0 ∧
      (validateConfig (loadConfig persisted5 initialConfig)).2 = false ∧
      ∀ subs : List ClientSubmission, (submittedList subs).length ≤ 3) :=
  ⟨by decide, c2_capacity_amended persisted5 initialConfig (by decide)⟩

/-- C3 counterexample.  A `/clients` submission with `pollInterval = 5`
is stored exactly as submitted — the handler performs no validation —
so immediately after this binding-mutating operation the stored binding
violates the invariant (`pollInterval ∈ [100, 60000]`). -/
theorem c3_invariant_counterexample :
    (0 : Int) < (handleClientsPost [submissionPoll5] initialConfig).activeclients ∧
    ((handleClientsPost [submissionPoll5] initialConfig).clients.getD 0 default).pollInterval = 5 ∧
    ¬ bindingInvariant
        ((handleClientsPost [submissionPoll5] initialConfig).clients.getD 0 default) := by
  decide

/-- Helper for C3: one pass of `validateConfig`'s per-binding loop body
yields a binding satisfying the invariant (the defaults `i + 1`, 10,
1000 and 0 are all in range for the loop's index range). -/
theorem validateClientFields_invariant (i : Nat) (c : ClientConfig) (h : i + 1 ≤ 247) :
    bindingInvariant (validateClientFields i c).1 := by
  have h7 : DEVICE_PROFILE_COUNT = 7 := rfl
  simp only [validateClientFields, bindingInvariant, CLIENT_ID_MIN, CLIENT_ID_MAX,
    REGISTER_COUNT_MIN, REGISTER_COUNT_MAX, POLL_INTERVAL_MIN, POLL_INTERVAL_MAX,
    validateRegisterCount, h7]
  split_ifs <;> simp_all [decide_eq_true_eq]

/-- Helper for C3: every binding the validation loop visits satisfies
the invariant afterwards. -/
theorem validateClientsAux_invariant (cs : List ClientConfig) :
    ∀ (i j : Nat) (n : Int), j < cs.length → ((i + j : Nat) : Int) < n →
    i + j + 1 ≤ 247 →
    bindingInvariant ((validateClientsAux i n cs).1.getD j default) := by
  induction cs with
  | nil => intro i j n hj hn hb; simp at hj
  | cons c cs ih =>
    intro i j n hj hn hb
    have hi : (i : Int) < n := by
      have hle : (i : Int) ≤ ((i + j : Nat) : Int) := by push_cast; omega
      omega
    simp only [validateClientsAux, if_pos hi]
    cases j with
    | zero =>
      simpa using validateClientFields_invariant i c (by omega)
    | succ jj =>
      simp only [List.getD_cons_succ]
      exact ih (i + 1) jj n (by simpa using hj) (by push_cast at hn ⊢; omega) (by omega)

/-- C3 amended.  `validateConfig` establishes the binding invariant:
every binding within the validated count satisfies it, each violating
field having been corrected to its documented default.  The invariant
does NOT hold after every binding-mutating operation, because the
`/clients` submission handler and `loadConfig` store field values
without validation (see the C3 counterexample); it is only established
when `validateConfig` runs (at boot). -/
theorem c3_invariant_amended (g : GatewayConfig) (i : Nat)
    (h1 : (i : Int) < ((validateConfig g).1).activeclients)
    (h2 : i < g.clients.length) :
    bindingInvariant (((validateConfig g).1).clients.getD i default) := by
  simp only [validateConfig] at h1 ⊢
  split at h1
  case isTrue hcond =>
    rw [if_pos hcond]
    rw [decide_eq_true_eq] at hcond
    have h3 : g.activeclients ≤ 3 := by
      have := hcond.2
      simpa [MAX_CLIENTS] using this
    refine validateClientsAux_invariant g.clients 0 i g.activeclients h2 ?_ ?_
    · simpa using h1
    · omega
  case isFalse hcond =>
    exfalso
    omega

/-- C3 witness: validating the invalid post-submission state of the C3
counterexample repairs its binding. -/
theorem c3_invariant_amended_witness :
    (0 : Int) <
      ((validateConfig (handleClientsPost [submissionPoll5] initialConfig)).1).activeclients ∧
    0 < (handleClientsPost [submissionPoll5] initialConfig).clients.length ∧
    bindingInvariant
      (((validateConfig (handleClientsPost [submissionPoll5] initialConfig)).1).clients.getD
        0 default) :=
  ⟨by decide, by decide,
    c3_invariant_amended (handleClientsPost [submissionPoll5] initialConfig) 0
      (by decide) (by decide)⟩

/-- C4 counterexample.  With binding slot 0 holding the default binding
(`registerCount = 10`), a `/api/registers` request for 122 registers
surfaces cache entries at every offset below 122 — including offset 10,
which is at/beyond the binding's configured window — instead of
returning undefined there. -/
theorem c4_window_counterexample :
    defaultClient.registerCount = 10 ∧
    apiRegisters 0 122 (fun i => i) true =
      Except.ok ((List.range 122).map (fun (i : Nat) => ((i : Int), i))) ∧
    ((10 : Int), (10 : Nat)) ∈ (List.range 122).map (fun (i : Nat) => ((i : Int), i)) := by
  refine ⟨by decide, ?_, by decide⟩
  rfl

/-- C4 amended.  For every in-range request (`1 ≤ count ≤ 122`), the
raw-read accessor returns exactly one entry per requested offset
`i < count`, always taken from binding slot 0's input-register cache
row — the response is bounded only by the requested count and
`MAX_REGISTERS`, never by any binding's `registerCount`, so offsets at
or beyond a binding's configured window are surfaced rather than
undefined. -/
theorem c4_window_amended (start count : Int) (regs : Nat → Nat)
    (h1 : 1 ≤ count) (h2 : count ≤ 122) :
    apiRegisters start count regs true =
      Except.ok ((List.range count.toNat).map
        (fun (i : Nat) => (start + (i : Int), regs i))) := by
  unfold apiRegisters MAX_REGISTERS
  rw [if_neg (by omega)]
  have hm : min count.toNat 122 = count.toNat := by omega
  rw [hm]
  simp

/-- C4 witness: the amended accessor behaviour at the concrete maximal
request of the counterexample scenario. -/
theorem c4_window_amended_witness :
    (1 : Int) ≤ 122 ∧ (122 : Int) ≤ 122 ∧
    apiRegisters 0 122 (fun i => i) true =
      Except.ok ((List.range (122 : Int).toNat).map
        (fun (i : Nat) => ((0 : Int) + (i : Int), i))) :=
  ⟨by decide, by decide, c4_window_amended 0 122 (fun i => i) (by decide) (by decide)⟩

/-- Helper: the 32-bit `millis() - lastPoll` difference equals the real
elapsed time when no wrap-around occurred in between. -/
theorem elapsed32_eq_sub (now last : Nat) (h1 : last ≤ now)
    (h2 : now - last < UINT32_MOD) : elapsed32 now last = now - last := by
  unfold UINT32_MOD at h2
  unfold elapsed32 UINT32_MOD
  omega

/-- C6 counterexample.  When all three read retries of a pass fail but
the 100 ms `configMutex` acquisition guarding the bookkeeping times out
(`cfgLockOk = false`), the binding's `errorCount` is NOT incremented and
`lastPollTimestamp` is NOT advanced (only the global error counter
moves) — refuting the claim's unconditional "incremented exactly once /
set to the current time", and leaving the binding immediately due
again. -/
theorem c6_fairness_counterexample :
    (pollRetryLoop false [.readFail, .readFail, .readFail]).errorCountDelta = 0 ∧
    (pollRetryLoop false [.readFail, .readFail, .readFail]).lastPollUpdated = false ∧
    (pollRetryLoop false [.readFail, .readFail, .readFail]).globalErrorsDelta = 1 := by
  decide

/-- C6 amended.  For every enabled binding whose three read attempts all
fail, provided the bookkeeping `configMutex` acquisition after the final
retry succeeds, the binding's `errorCount` is incremented exactly once,
`lastPoll` is set to the current time, `successCount` is untouched, and
the due check then skips the binding at every instant within a full
`pollInterval` of that timestamp (not merely the 100 ms inter-retry
backoff).  If the bookkeeping acquisition times out, neither update
happens (see the counterexample). -/
theorem c6_fairness_amended (now t interval : Nat) (h1 : interval < UINT32_MOD)
    (h2 : now ≤ t) (h3 : t - now < interval) :
    (pollRetryLoop true [.readFail, .readFail, .readFail]).errorCountDelta = 1 ∧
    (pollRetryLoop true [.readFail, .readFail, .readFail]).lastPollUpdated = true ∧
    (pollRetryLoop true [.readFail, .readFail, .readFail]).successCountDelta = 0 ∧
    pollSkipped t now interval = true := by
  refine ⟨by decide, by decide, by decide, ?_⟩
  unfold pollSkipped
  rw [elapsed32_eq_sub t now h2 (by omega)]
  simp only [decide_eq_true_eq]
  omega

/-- C6 witness: the amended behaviour with the failure bookkept at time
0 and the due check consulted at time 500 for a 1000 ms interval. -/
theorem c6_fairness_amended_witness :
    1000 < UINT32_MOD ∧ 0 ≤ 500 ∧ 500 - 0 < 1000 ∧
    ((pollRetryLoop true [.readFail, .readFail, .readFail]).errorCountDelta = 1 ∧
      (pollRetryLoop true [.readFail, .readFail, .readFail]).lastPollUpdated = true ∧
      (pollRetryLoop true [.readFail, .readFail, .readFail]).successCountDelta = 0 ∧
      pollSkipped 500 0 1000 = true) :=
  ⟨by decide, by decide, by decide, c6_fairness_amended 0 500 1000 (by decide) (by decide) (by decide)⟩

/-- C7: poll interval gating boundary.  For a binding with
`pollInterval = 1000` whose last poll completed at time 0, the due check
skips the binding exactly while the elapsed time is strictly below 1000:
it is not attempted at any time before 999 (nor at 999) and becomes
eligible exactly at 1000. -/
theorem c7_poll_gating (t : Nat) (ht : t < UINT32_MOD) :
    pollSkipped t 0 1000 = true ↔ t < 1000 := by
  unfold UINT32_MOD at ht
  unfold pollSkipped elapsed32 UINT32_MOD
  simp only [decide_eq_true_eq]
  omega

/-- C7 witness: the gate consulted at the boundary instant 1000. -/
theorem c7_poll_gating_witness :
    1000 < UINT32_MOD ∧ (pollSkipped 1000 0 1000 = true ↔ 1000 < 1000) :=
  ⟨by decide, c7_poll_gating 1000 (by decide)⟩

/-- C8: lock timeouts are never attributed to the device.  In every
polling pass the global `systemErrors` counter advances exactly once per
executed `dataMutex` acquisition timeout, and a pass consisting solely
of such timeouts leaves the binding's `errorCount` untouched. -/
theorem c8_lock_timeout_attribution (s : List AttemptOutcome) (cfgLockOk : Bool) :
    (pollRetryLoop cfgLockOk s).systemErrorsDelta = executedTimeouts s ∧
    ((∀ o ∈ s, o = AttemptOutcome.lockTimeout) →
      (pollRetryLoop cfgLockOk s).errorCountDelta = 0) := by
  induction s with
  | nil => simp [pollRetryLoop, executedTimeouts]
  | cons o rest ih =>
    cases o with
    | readOk => simp [pollRetryLoop, executedTimeouts]
    | readFail =>
      cases rest with
      | nil => simp [pollRetryLoop, executedTimeouts]
      | cons o2 rest2 =>
        refine ⟨?_, ?_⟩
        · simpa [pollRetryLoop, executedTimeouts] using ih.1
        · intro h
          exact absurd (h _ (List.mem_cons_self _ _)) (by simp)
    | lockTimeout =>
      refine ⟨?_, ?_⟩
      · simpa [pollRetryLoop, executedTimeouts] using ih.1
      · intro h
        have := ih.2 (fun o ho => h o (List.mem_cons_of_mem _ ho))
        simpa [pollRetryLoop] using this

/-- C8 witness: a pass of three consecutive lock timeouts increments
`systemErrors` three times and `errorCount` zero times. -/
theorem c8_lock_timeout_attribution_witness :
    (pollRetryLoop true [.lockTimeout, .lockTimeout, .lockTimeout]).systemErrorsDelta =
      executedTimeouts [.lockTimeout, .lockTimeout, .lockTimeout] ∧
    (pollRetryLoop true [.lockTimeout, .lockTimeout, .lockTimeout]).errorCountDelta = 0 :=
  ⟨(c8_lock_timeout_attribution [.lockTimeout, .lockTimeout, .lockTimeout] true).1,
   (c8_lock_timeout_attribution [.lockTimeout, .lockTimeout, .lockTimeout] true).2 (by decide)⟩

/-- C9 counterexample.  After a `dataMutex` acquisition timeout the
retry loop continues: a pass whose acquisitions all time out performs
three acquisition attempts within the same scheduler tick, not the
single attempt the claim ("no further acquisition attempt for that
operation within the same tick") allows. -/
theorem c9_retry_counterexample :
    (pollRetryLoop true [.lockTimeout, .lockTimeout, .lockTimeout]).lockAttempts = 3 ∧
    (3 : Nat) ≠ 1 := by
  decide

/-- C9 amended.  A timed-out `dataMutex` acquisition consumes one of the
pass's bounded retries: within one tick the pass performs at most
`MAX_MODBUS_RETRIES` acquisition attempts (one per retry script entry),
and exactly one per executed retry when no attempt succeeds; only after
the retries are exhausted is the operation abandoned until a later
tick. -/
theorem c9_retry_amended (s : List AttemptOutcome) (cfgLockOk : Bool) :
    (pollRetryLoop cfgLockOk s).lockAttempts ≤ s.length ∧
    (AttemptOutcome.readOk ∉ s →
      (pollRetryLoop cfgLockOk s).lockAttempts = s.length) := by
  induction s with
  | nil => simp [pollRetryLoop]
  | cons o rest ih =>
    cases o with
    | readOk => simp [pollRetryLoop]
    | readFail =>
      cases rest with
      | nil => simp [pollRetryLoop]
      | cons o2 rest2 =>
        have ha := ih.1
        refine ⟨?_, ?_⟩
        · simp only [pollRetryLoop, List.length_cons] at ha ⊢
          omega
        · intro h
          simp only [List.mem_cons, not_or] at h
          have hb := ih.2 (by simp [h.2])
          simp only [pollRetryLoop, List.length_cons] at hb ⊢
          omega
    | lockTimeout =>
      have ha := ih.1
      refine ⟨?_, ?_⟩
      · simp only [pollRetryLoop, List.length_cons] at ha ⊢
        omega
      · intro h
        simp only [List.mem_cons, not_or] at h
        have hb := ih.2 (by simp [h.2])
        simp only [pollRetryLoop, List.length_cons] at hb ⊢
        omega

/-- C9 witness: the amended bound at a pass of one timeout followed by
two failed reads. -/
theorem c9_retry_amended_witness :
    (pollRetryLoop true [.lockTimeout, .readFail, .readFail]).lockAttempts ≤ 3 ∧
    (AttemptOutcome.readOk ∉
        ([.lockTimeout, .readFail, .readFail] : List AttemptOutcome) →
      (pollRetryLoop true [.lockTimeout, .readFail, .readFail]).lockAttempts = 3) :=
  c9_retry_amended [.lockTimeout, .readFail, .readFail] true

/-- C10: every accepted `/clients` submission resets runtime state.
Whenever the submission stores at least one binding, every stored
binding (all indices below the new `activeclients`) has
`successCount = 0`, `errorCount = 0` and `lastPoll = 0` — making every
binding immediately due and wiping per-binding statistics even when the
binding's settings are unchanged. -/
theorem c10_submission_resets (subs : List ClientSubmission) (g : GatewayConfig) (i : Nat)
    (h1 : 1 ≤ (submittedList subs).length)
    (h2 : (i : Int) < (handleClientsPost subs g).activeclients) :
    ((handleClientsPost subs g).clients.getD i default).successCount = 0 ∧
    ((handleClientsPost subs g).clients.getD i default).errorCount = 0 ∧
    ((handleClientsPost subs g).clients.getD i default).lastPoll = 0 := by
  have hact : (handleClientsPost subs g).activeclients =
      ((submittedList subs).length : Int) := by
    simp only [handleClientsPost]
    rw [if_neg (by omega)]
  rw [hact] at h2
  have hi : i < (submittedList subs).length := by exact_mod_cast h2
  have hded : (handleClientsPost subs g).clients.getD i default =
      (submittedList subs).getD i default := by
    simp only [handleClientsPost]
    exact List.getD_append _ _ _ _ hi
  rw [hded]
  have hmem : (submittedList subs).getD i default ∈ submittedList subs := by
    rw [List.getD_eq_getElem _ _ hi]
    exact List.getElem_mem _
  have hall : ∀ c ∈ submittedList subs,
      c.successCount = 0 ∧ c.errorCount = 0 ∧ c.lastPoll = 0 := by
    intro c hc
    simp only [submittedList, List.mem_map] at hc
    obtain ⟨q, _, hq⟩ := hc
    subst hq
    simp [storeClient]
  exact hall _ hmem

/-- C10 witness: a one-binding submission against a state whose binding
carries non-zero statistics. -/
theorem c10_submission_resets_witness :
    1 ≤ (submittedList [submissionOk]).length ∧
    (0 : Int) < (handleClientsPost [submissionOk] gWithStats).activeclients ∧
    (((handleClientsPost [submissionOk] gWithStats).clients.getD 0 default).successCount = 0 ∧
      ((handleClientsPost [submissionOk] gWithStats).clients.getD 0 default).errorCount = 0 ∧
      ((handleClientsPost [submissionOk] gWithStats).clients.getD 0 default).lastPoll = 0) :=
  ⟨by decide, by decide,
    c10_submission_resets [submissionOk] gWithStats 0 (by decide) (by decide)⟩

end ModbusGateway
